import Mathlib

/-!
Shallow embedding of `src/backend/core/system_automation.py` (class
`SystemAutomation`): the task-execution planner/executor loop
(`execute_complex_task`, `create_execution_plan`, `execute_step` and the
five step handlers).

Python dictionaries are modelled as association lists of `PyVal`s; the
external world (file system, shell, browser driver, cloud SDK) is a
`World` record whose oracle fields give the outcome of each external
call (`Except String α`: `.error m` models the call raising a Python
exception with message `m`).  Python exceptions escaping a function are
modelled by the function returning `Except.error`.
-/

namespace SystemAutomation

/-- A Python value as used by the automation module: `None`, strings,
integers, lists and string-keyed dictionaries. -/
inductive PyVal where
  | none : PyVal
  | s : String → PyVal
  | i : Int → PyVal
  | list : List PyVal → PyVal
  | dict : List (String × PyVal) → PyVal

/-- Association-list lookup: `d.get(k)` on a Python dict, `Option.none`
when the key is absent (Python returns `None`). -/
def pyGet (v : PyVal) (key : String) : Option PyVal :=
  match v with
  | .dict kvs => kvs.lookup key
  | _ => Option.none

/-- Python `d.get(k, default)` on a dict. -/
def pyGetD (v : PyVal) (key : String) (dflt : PyVal) : PyVal :=
  (pyGet v key).getD dflt

/-- Python `str()` / f-string rendering of a possibly-missing value
(`None` prints as `"None"`).  List/dict renderings are modelled
abbreviations; no claim inspects them. -/
def pyStr (v : Option PyVal) : String :=
  match v with
  | Option.none => "None"
  | some .none => "None"
  | some (.s str) => str
  | some (.i n) => toString n
  | some (.list _) => "[...]"
  | some (.dict _) => "\x7b...\x7d"

/-- Whether `needle` occurs at the head of `hay` (character lists). -/
def headMatch : List Char → List Char → Bool
  | [], _ => true
  | _ :: _, [] => false
  | c :: cs, d :: ds => c = d && headMatch cs ds

/-- Whether `needle` occurs somewhere in `hay` (character lists). -/
def hasSub (needle : List Char) : List Char → Bool
  | [] => headMatch needle []
  | d :: ds => headMatch needle (d :: ds) || hasSub needle ds

/-- Python `needle in hay` on strings (substring containment). -/
def pyIn (needle hay : String) : Bool :=
  hasSub needle.toList hay.toList

/-- Python `s.lower()` (per-character lowercasing). -/
def pyLower (s : String) : String :=
  ⟨s.data.map Char.toLower⟩

/-- Universal-newline translation performed by Python text-mode reads:
a `"\r\n"` pair and a lone `"\r"` both become `"\n"`. -/
def uniNewlines : List Char → List Char
  | [] => []
  | '\r' :: '\n' :: rest => '\n' :: uniNewlines rest
  | '\r' :: rest => '\n' :: uniNewlines rest
  | c :: rest => c :: uniNewlines rest

/-- What Python `open(fn, "r").read()` returns for a file whose stored
bytes are `s`: the universal-newline translation of `s`.  (Writes on
POSIX are verbatim, since `os.linesep` is `"\n"`.) -/
def pyReadText (s : String) : String :=
  ⟨uniNewlines s.data⟩

/-- Result of `subprocess.run(..., capture_output=True, text=True)`. -/
structure ShellOut where
  stdout : String
  stderr : String
  returncode : Int
deriving DecidableEq, Repr

/-- The external world seen by the automation module.  `fs` is the text
file system; `driver` and `aws_session` mirror the instance attributes
`self.driver` / `self.aws_session` (lazily created sessions).  The
remaining fields are oracles for the outcome of each external SDK call:
`.error m` means the call raises an exception whose message is `m`. -/
structure World where
  fs : List (String × String)
  driver : Bool
  aws_session : Bool
  /-- Outcome of `webdriver.Chrome(options=...)` — construction of the browser. -/
  chromeCreate : Except String Unit
  /-- The selenium interactions inside the `try` body of
  `execute_browser_action`, keyed by the step being executed. -/
  browserCall : PyVal → Except String Unit
  /-- Outcome of `subprocess.run(command, shell=True,
  capture_output=True, text=True)`, given the raw value fetched from
  the step. -/
  shellRun : Option PyVal → Except String ShellOut
  /-- Outcome of `os.makedirs(directory, exist_ok=True)`. -/
  mkdir : Option PyVal → Except String Unit
  /-- Outcome of `lambda_client.create_function(...)` given function
  name and runtime; returns the `FunctionArn`. -/
  awsCreateFunction : PyVal → PyVal → Except String String
  /-- Outcome of `s3_client.create_bucket(Bucket=...)`. -/
  awsCreateBucket : PyVal → Except String Unit
  /-- Outcome of `sts_client.get_caller_identity()` field `Account`. -/
  stsAccount : Except String String
  /-- Whether `open(fn, "w")` (plus the write) raises, and with what
  message, for a given file name. -/
  writeFails : String → Option String

/-- Store `content` under `fn`, replacing any previous content (the
effect of `open(fn, "w"); f.write(content)`). -/
def fsSet (fs : List (String × String)) (fn content : String) :
    List (String × String) :=
  (fn, content) :: fs.filter (fun kv => kv.1 ≠ fn)

/-- An error observation `{"error": msg}` as built throughout the
module. -/
def errDict (msg : String) : PyVal :=
  .dict [("error", .s msg)]

/-- The fixed six-step plan returned by `create_execution_plan` for
tasks mentioning both "solar" and "pipeline"
(`system_automation.py` lines 92-130). -/
def solar_plan : List PyVal :=
  [ .dict [("type", .s "browser_automation"),
           ("action", .s "open_aws_console"),
           ("description", .s "Open AWS Console"),
           ("url", .s "https://aws.amazon.com/console/")],
    .dict [("type", .s "browser_automation"),
           ("action", .s "login_aws"),
           ("description", .s "Login to AWS"),
           ("credentials_source", .s "environment")],
    .dict [("type", .s "aws_operation"),
           ("action", .s "create_lambda_function"),
           ("description", .s "Create Lambda function for solar data processing"),
           ("function_name", .s "solar-ontario-pipeline"),
           ("runtime", .s "python3.9")],
    .dict [("type", .s "aws_operation"),
           ("action", .s "create_s3_bucket"),
           ("description", .s "Create S3 bucket for solar data storage"),
           ("bucket_name", .s "solar-ontario-data")],
    .dict [("type", .s "code_generation"),
           ("action", .s "generate_pipeline_code"),
           ("description", .s "Generate solar pipeline code"),
           ("language", .s "python")],
    .dict [("type", .s "aws_operation"),
           ("action", .s "deploy_pipeline"),
           ("description", .s "Deploy complete solar pipeline"),
           ("components", .list [.s "lambda", .s "s3", .s "cloudwatch"])] ]

/-- The single generic step returned when no rule matches
(`system_automation.py` lines 133-139). -/
def generic_step (task : String) : PyVal :=
  .dict [("type", .s "analysis"),
         ("action", .s "analyze_task"),
         ("description", .s ("Analyze and break down: " ++ task))]

/-- Embeds `SystemAutomation.create_execution_plan` (lines 87-139): a pure
lookup on the task text — `"solar" in task.lower() and "pipeline" in
task.lower()` selects the hard-coded solar plan, anything else the
one-step generic breakdown. -/
def create_execution_plan (task : String) : List PyVal :=
  if pyIn "solar" (pyLower task) && pyIn "pipeline" (pyLower task) then
    solar_plan
  else
    [generic_step task]

/-- Embeds `SystemAutomation.get_account_id` (lines 392-398): the bare
`except` returns the demo default on any failure. -/
def get_account_id (w : World) : String :=
  match w.stsAccount with
  | .ok a => a
  | .error _ => "123456789012"

/-- Stands for the fixed Python source template returned by
`SystemAutomation.generate_solar_pipeline_code` (lines 413-487).  Only
the fact that it is one fixed string matters to the module; its exact
text is never inspected. -/
def generate_solar_pipeline_code : String :=
  "import json ... def lambda_handler(event, context): ..."

/-- Embeds `SystemAutomation.execute_browser_action` (lines 160-213).  The
driver is created lazily *before* the `try` block, so a failure of
`webdriver.Chrome` escapes the handler (`Except.error`); everything
inside the `try` is caught and converted to
`{"error": "Browser action failed: ..."}`. -/
def execute_browser_action (step : PyVal) (w0 : World) :
    Except String (PyVal × World) :=
  let action := pyGet step "action"
  match (if w0.driver then Except.ok w0 else
      w0.chromeCreate.map fun _ => { w0 with driver := true }) with
  | .error m => .error m
  | .ok w =>
    match action with
    | some (.s "open_aws_console") =>
      match w.browserCall step with
      | .ok _ => .ok (.dict [("status", .s "success"),
          ("action", .s "AWS Console opened")], w)
      | .error m => .ok (errDict ("Browser action failed: " ++ m), w)
    | some (.s "login_aws") =>
      match w.browserCall step with
      | .ok _ => .ok (.dict [("status", .s "success"),
          ("action", .s "AWS login completed")], w)
      | .error m => .ok (errDict ("Browser action failed: " ++ m), w)
    | some (.s "navigate_to_service") =>
      let service := pyGetD step "service" (.s "lambda")
      match w.browserCall step with
      | .ok _ => .ok (.dict [("status", .s "success"),
          ("action", .s ("Navigated to " ++ pyStr (some service)))], w)
      | .error m => .ok (errDict ("Browser action failed: " ++ m), w)
    | some (.s "create_resource") =>
      match w.browserCall step with
      | .ok _ => .ok (.dict [("status", .s "success"),
          ("action", .s "Resource creation initiated")], w)
      | .error m => .ok (errDict ("Browser action failed: " ++ m), w)
    | a => .ok (errDict ("Unknown browser action: " ++ pyStr a), w)

/-- The `create_lambda_function` branch of `execute_aws_operation`
(lines 227-247), with its surrounding `try/except`.  The IAM role
string built from `get_account_id` is an argument of the SDK call and
is absorbed by the `awsCreateFunction` oracle. -/
def aws_create_lambda (step : PyVal) (w : World) : PyVal × World :=
  let function_name := pyGetD step "function_name" (.s "jarvis-function")
  let runtime := pyGetD step "runtime" (.s "python3.9")
  match w.awsCreateFunction function_name runtime with
  | .ok arn => (.dict [("status", .s "success"),
      ("action", .s "Lambda function created"),
      ("function_arn", .s arn)], w)
  | .error m => (errDict ("AWS operation failed: " ++ m), w)

/-- The `create_s3_bucket` branch of `execute_aws_operation`
(lines 249-259), with its surrounding `try/except`. -/
def aws_create_bucket (step : PyVal) (w : World) : PyVal × World :=
  let bucket_name := pyGetD step "bucket_name" (.s "jarvis-bucket")
  match w.awsCreateBucket bucket_name with
  | .ok _ => (.dict [("status", .s "success"),
      ("action", .s "S3 bucket created"),
      ("bucket_name", bucket_name)], w)
  | .error m => (errDict ("AWS operation failed: " ++ m), w)

/-- Embeds `SystemAutomation.execute_aws_operation` (lines 215-291).  The
whole body runs inside `try/except Exception`, so the handler never
raises: SDK exceptions `m` become `{"error": "AWS operation failed: " +
m}`.  The `deploy_pipeline` branch of the source calls
`execute_aws_operation` recursively, but only with literal steps whose
action is one of the two base actions, so that recursion is unfolded
here into calls of `aws_create_lambda` / `aws_create_bucket` (each of
which carries its own catch, exactly as the recursive call would). -/
def execute_aws_operation (step : PyVal) (w0 : World) : PyVal × World :=
  let action := pyGet step "action"
  let w := { w0 with aws_session := true }
  match action with
  | some (.s "create_lambda_function") => aws_create_lambda step w
  | some (.s "create_s3_bucket") => aws_create_bucket step w
  | some (.s "deploy_pipeline") =>
    match pyGetD step "components" (.list []) with
    | .list comps =>
      let (results, w') := comps.foldl
        (fun (acc : List PyVal × World) component =>
          match component with
          | .s "lambda" =>
            let (r, w2) := aws_create_lambda
              (.dict [("action", .s "create_lambda_function"),
                      ("function_name", .s "solar-pipeline-processor")]) acc.2
            (acc.1 ++ [r], w2)
          | .s "s3" =>
            let (r, w2) := aws_create_bucket
              (.dict [("action", .s "create_s3_bucket"),
                      ("bucket_name", .s "solar-ontario-data")]) acc.2
            (acc.1 ++ [r], w2)
          | _ => acc) ([], w)
      (.dict [("status", .s "success"),
        ("action", .s "Pipeline deployed"),
        ("components", .list results)], w')
    | _ => (errDict "AWS operation failed: object is not iterable", w)
  | a => (errDict ("Unknown AWS action: " ++ pyStr a), w)

/-- Embeds `SystemAutomation.execute_system_operation` (lines 293-333).  The
whole body after reading the action runs inside `try/except`, so the
handler never raises.  Note the `run_command` branch reports
`status: "success"` whatever the process exit code, and exceptions are
reported as `{"error": ...}` with no status field at all. -/
def execute_system_operation (step : PyVal) (w : World) : PyVal × World :=
  let action := pyGet step "action"
  match action with
  | some (.s "run_command") =>
    match w.shellRun (pyGet step "command") with
    | .ok r => (.dict [("status", .s "success"),
        ("action", .s "Command executed"),
        ("output", .s r.stdout),
        ("error", .s r.stderr),
        ("return_code", .i r.returncode)], w)
    | .error m => (errDict ("System operation failed: " ++ m), w)
  | some (.s "install_package") =>
    let package := pyGet step "package"
    match w.shellRun (some (.s ("pip install " ++ pyStr package))) with
    | .ok r => (.dict [("status", .s "success"),
        ("action", .s ("Package " ++ pyStr package ++ " installed")),
        ("output", .s r.stdout)], w)
    | .error m => (errDict ("System operation failed: " ++ m), w)
  | some (.s "create_directory") =>
    let directory := pyGet step "directory"
    match w.mkdir directory with
    | .ok _ => (.dict [("status", .s "success"),
        ("action", .s ("Directory " ++ pyStr directory ++ " created"))], w)
    | .error m => (errDict ("System operation failed: " ++ m), w)
  | a => (errDict ("Unknown system action: " ++ pyStr a), w)

/-- Embeds `SystemAutomation.execute_code_generation` (lines 335-356).  This
handler has **no** `try/except`: a failure of the unguarded
`open("solar_pipeline.py", "w")` / `f.write(code)` escapes as an
exception (`Except.error`).  When the action is
`generate_pipeline_code` but the language is not `"python"`, control
falls through to the final `return` with the unknown-action error. -/
def execute_code_generation (step : PyVal) (w : World) :
    Except String (PyVal × World) :=
  let action := pyGet step "action"
  match action with
  | some (.s "generate_pipeline_code") =>
    match pyGetD step "language" (.s "python") with
    | .s "python" =>
      let code := generate_solar_pipeline_code
      match w.writeFails "solar_pipeline.py" with
      | some m => .error m
      | Option.none =>
        .ok (.dict [("status", .s "success"),
          ("action", .s "Solar pipeline code generated"),
          ("file", .s "solar_pipeline.py"),
          ("code_length", .i (code.length : Int))],
          { w with fs := fsSet w.fs "solar_pipeline.py" code })
    | _ => .ok (errDict ("Unknown code generation action: " ++ pyStr action), w)
  | a => .ok (errDict ("Unknown code generation action: " ++ pyStr a), w)

/-- Embeds `SystemAutomation.execute_file_operation` (lines 358-390).  The
whole body after reading the action runs inside `try/except`, so the
handler never raises; exception message texts for the non-string
filename/content cases are modelled.  Writes are POSIX text-mode writes
(verbatim, `os.linesep` being `"\n"`); reads are text-mode reads, which
apply universal-newline translation to the stored bytes. -/
def execute_file_operation (step : PyVal) (w : World) : PyVal × World :=
  let action := pyGet step "action"
  match action with
  | some (.s "create_file") =>
    match pyGet step "filename" with
    | some (.s fn) =>
      (match pyGetD step "content" (.s "") with
       | .s content =>
         (match w.writeFails fn with
          | some m => (errDict ("File operation failed: " ++ m), w)
          | Option.none =>
            (.dict [("status", .s "success"),
              ("action", .s ("File " ++ fn ++ " created"))],
              { w with fs := fsSet w.fs fn content }))
       | _ => (errDict "File operation failed: write() argument must be str", w))
    | _ => (errDict "File operation failed: expected str, bytes or os.PathLike object", w)
  | some (.s "read_file") =>
    match pyGet step "filename" with
    | some (.s fn) =>
      (match w.fs.lookup fn with
       | some content => (.dict [("status", .s "success"),
           ("action", .s ("File " ++ fn ++ " read")),
           ("content", .s (pyReadText content))], w)
       | Option.none =>
         (errDict ("File operation failed: No such file or directory: " ++ fn), w))
    | _ => (errDict "File operation failed: expected str, bytes or os.PathLike object", w)
  | a => (errDict ("Unknown file action: " ++ pyStr a), w)

/-- Embeds `SystemAutomation.execute_step` (lines 141-158): dispatch on the
step's `type` tag.  The function itself has no `try/except`, so an
exception escaping a handler escapes `execute_step` too. -/
def execute_step (step : PyVal) (w : World) : Except String (PyVal × World) :=
  let step_type := pyGet step "type"
  match step_type with
  | some (.s "browser_automation") => execute_browser_action step w
  | some (.s "aws_operation") => .ok (execute_aws_operation step w)
  | some (.s "system_operation") => .ok (execute_system_operation step w)
  | some (.s "code_generation") => execute_code_generation step w
  | some (.s "file_operation") => .ok (execute_file_operation step w)
  | t => .ok (errDict ("Unknown step type: " ++ pyStr t), w)

/-- The `for step in execution_plan` loop of `execute_complex_task`
(lines 70-78): every step is executed; an exception from
`execute_step` is caught and recorded as `{"error": str(e), "step":
step}`, and the loop continues with the next step. -/
def run_steps : List PyVal → World → List PyVal × World
  | [], w => ([], w)
  | stp :: rest, w =>
    match execute_step stp w with
    | .ok (obs, w') =>
      let (rs, w'') := run_steps rest w'
      (obs :: rs, w'')
    | .error e =>
      let (rs, w'') := run_steps rest w
      (.dict [("error", .s e), ("step", stp)] :: rs, w'')

/-- Embeds `SystemAutomation.execute_complex_task` (lines 60-85): plan once,
run every step, and return the fixed-shape result dict — its `status`
is the literal `"completed"` on every path. -/
def execute_complex_task (task : String) (w : World) : PyVal × World :=
  let execution_plan := create_execution_plan task
  let (results, w') := run_steps execution_plan w
  (.dict [("task", .s task),
    ("execution_plan", .list execution_plan),
    ("results", .list results),
    ("status", .s "completed")], w')

/-- The `results` list of an `execute_complex_task` return value. -/
def resultsOf (r : PyVal) : List PyVal :=
  match pyGet r "results" with
  | some (.list l) => l
  | _ => []

/-- The observation shape actually produced by the module: either a
success record (`status: "success"` plus an `action` payload) or an
error record (an `error` message and no `status` field at all). -/
def obsShapeB (v : PyVal) : Bool :=
  match pyGet v "status", pyGet v "action", pyGet v "error" with
  | some (.s "success"), some _, _ => true
  | Option.none, _, some (.s _) => true
  | _, _, _ => false

/-- A world in which every external call succeeds: empty file system,
no browser session yet, shell commands exit 0. -/
def okWorld : World :=
  { fs := [], driver := false, aws_session := false,
    chromeCreate := .ok (), browserCall := fun _ => .ok (),
    shellRun := fun _ => .ok ⟨"", "", 0⟩, mkdir := fun _ => .ok (),
    awsCreateFunction := fun _ _ => .ok "arn:aws:lambda:us-east-1:123456789012:function:solar-ontario-pipeline",
    awsCreateBucket := fun _ => .ok (), stsAccount := .ok "123456789012",
    writeFails := fun _ => Option.none }

/-- A world whose selenium interactions all raise a timeout. -/
def browserFailWorld : World :=
  { okWorld with browserCall := fun _ => .error "timeout" }

/-- A world in which every `open(fn, "w")` raises. -/
def writeFailWorld : World :=
  { okWorld with writeFails := fun _ => some "disk full" }

/-- A world whose shell commands fail with exit code 1 (no exception:
`subprocess.run` returns normally on a non-zero exit code). -/
def shellExitOneWorld : World :=
  { okWorld with shellRun := fun _ => .ok ⟨"", "boom", 1⟩ }

/-- A world in which spawning the shell itself raises. -/
def shellRaiseWorld : World :=
  { okWorld with shellRun := fun _ => .error "No such file or directory" }

/-- A task matching the planner's solar-pipeline rule. -/
def solar_task : String := "Create pipeline for solar plants usage in Ontario"

/-- A plausible "read a file then summarise it" task; it matches no
hard-coded planner rule. -/
def read_write_task : String := "Read the file report.txt and write a summary of it"

/-- A code-generation step as produced by the solar plan. -/
def cg_step : PyVal :=
  .dict [("type", .s "code_generation"),
         ("action", .s "generate_pipeline_code"),
         ("language", .s "python")]

/-- A shell step running a caller-given command. -/
def run_command_step (cmd : String) : PyVal :=
  .dict [("type", .s "system_operation"),
         ("action", .s "run_command"),
         ("command", .s cmd)]

/-- A file-creation step with caller-given filename and content. -/
def create_file_step (fn content : String) : PyVal :=
  .dict [("type", .s "file_operation"),
         ("action", .s "create_file"),
         ("filename", .s fn),
         ("content", .s content)]

/-- A file-read step for a caller-given filename. -/
def read_file_step (fn : String) : PyVal :=
  .dict [("type", .s "file_operation"),
         ("action", .s "read_file"),
         ("filename", .s fn)]

/-- A step of the unhandled `analysis` type, as the generic plan
produces. -/
def analysis_only_step : PyVal := .dict [("type", .s "analysis")]

/-! Helper lemmas about the loop driver. -/

/-- The loop of `execute_complex_task` appends exactly one observation
per plan step — it never stops early and never skips a step. -/
theorem run_steps_length (steps : List PyVal) (w : World) :
    (run_steps steps w).1.length = steps.length := by
  induction steps generalizing w with
  | nil => rfl
  | cons s rest ih =>
    unfold run_steps
    cases h : execute_step s w with
    | ok p => simp [ih]
    | error e => simp [ih]

/-- The returned dict's `status` field is the literal `"completed"`. -/
theorem ect_status (task : String) (w : World) :
    pyGet (execute_complex_task task w).1 "status" = some (.s "completed") := rfl

/-- The returned dict's `results` field is the loop's observation
list. -/
theorem ect_results (task : String) (w : World) :
    resultsOf (execute_complex_task task w).1 =
      (run_steps (create_execution_plan task) w).1 := rfl

/-- Tasks matching no rule get the one-step generic plan. -/
theorem plan_of_unmatched (task : String)
    (h : (pyIn "solar" (pyLower task) && pyIn "pipeline" (pyLower task)) = false) :
    create_execution_plan task = [generic_step task] := by
  simp [create_execution_plan, h]

/-! Claim C1 — the loop driver and error observations. -/

/-- Claim C1, counterexample: running the solar task in a world whose
browser calls time out, the very first observation is an error
(`Browser action failed: timeout`), yet `execute_complex_task` returns
top-level `status: "completed"` — not `status: "error"` as the claim
states. -/
theorem solar_run_error_observed_but_status_completed :
    (resultsOf (execute_complex_task solar_task browserFailWorld).1).head? =
      some (errDict "Browser action failed: timeout") ∧
    pyGet (execute_complex_task solar_task browserFailWorld).1 "status" =
      some (.s "completed") :=
  ⟨rfl, rfl⟩

/-- Claim C1, amended: an error observation does not halt the loop —
every step of the precomputed plan is executed (one observation per
plan step) and the top-level `status` is the literal `"completed"` on
every path, errors included. -/
theorem execute_complex_task_always_completed_runs_full_plan
    (task : String) (w : World) :
    pyGet (execute_complex_task task w).1 "status" = some (.s "completed") ∧
    (resultsOf (execute_complex_task task w).1).length =
      (create_execution_plan task).length := by
  refine ⟨rfl, ?_⟩
  rw [ect_results]
  exact run_steps_length _ _

/-! Claim C2 — iteration bound. -/

/-- Claim C2, counterexample: in the browser-failure world the first
observation of the solar run is an error, yet the loop still performs
all six iterations — it does not stop on the first error observation
as the claim states. -/
theorem solar_run_continues_six_steps_after_first_error :
    (resultsOf (execute_complex_task solar_task browserFailWorld).1).length = 6 ∧
    (resultsOf (execute_complex_task solar_task browserFailWorld).1).head? =
      some (errDict "Browser action failed: timeout") :=
  ⟨rfl, rfl⟩

/-- Claim C2, amended: the loop performs exactly one iteration per plan
step — six for solar tasks, one otherwise, hence never more than 10 —
but there is no iteration cap, no early stop on errors, no finish
action and no "max steps" message anywhere in the code. -/
theorem execute_complex_task_iterations_eq_plan_length_le_ten
    (task : String) (w : World) :
    (resultsOf (execute_complex_task task w).1).length =
      (create_execution_plan task).length ∧
    (create_execution_plan task).length ≤ 10 := by
  refine ⟨by rw [ect_results]; exact run_steps_length _ _, ?_⟩
  unfold create_execution_plan
  split
  · decide
  · simp

/-! Claim C3 — the planner's no-match behaviour. -/

/-- Claim C3, counterexample: for the unmatched task `"hello"` the
first planner call returns a one-step plan whose step has type
`"analysis"` and action `"analyze_task"` — not a `finish` action
(no rule of the planner ever emits a `finish` action). -/
theorem unmatched_task_first_plan_is_analysis_step :
    create_execution_plan "hello" = [generic_step "hello"] ∧
    pyGet (generic_step "hello") "type" = some (.s "analysis") ∧
    pyGet (generic_step "hello") "action" = some (.s "analyze_task") :=
  ⟨rfl, rfl, rfl⟩

/-- Claim C3, amended: for every task matching no hard-coded rule, the
planner returns the single-step generic plan — an `analysis` step whose
description embeds the task text — rather than a `finish` action. -/
theorem create_execution_plan_unmatched_single_analysis (task : String)
    (h : (pyIn "solar" (pyLower task) && pyIn "pipeline" (pyLower task)) = false) :
    create_execution_plan task = [generic_step task] :=
  plan_of_unmatched task h

/-- Claim C3, witness: the task `"hello"` matches no rule and gets the
generic one-step plan. -/
theorem create_execution_plan_unmatched_single_analysis_witness :
    (pyIn "solar" (pyLower "hello") && pyIn "pipeline" (pyLower "hello")) = false ∧
    create_execution_plan "hello" = [generic_step "hello"] :=
  ⟨rfl, create_execution_plan_unmatched_single_analysis "hello" rfl⟩

/-! Claim C7 — the planner does not consult history. -/

/-- Claim C7, counterexample: for a fixed read-then-summarise task the
first planner call (the planner takes no history argument at all)
returns the generic analysis step, not a read-file action — so the
claimed read/write/finish sequence never starts. -/
theorem read_write_task_planner_returns_analysis_not_read_action :
    create_execution_plan read_write_task = [generic_step read_write_task] ∧
    pyGet (generic_step read_write_task) "action" = some (.s "analyze_task") :=
  ⟨rfl, rfl⟩

/-- Claim C7, amended: `create_execution_plan` is a function of the
task text alone (it has no history parameter) and returns one of
exactly two shapes — the fixed six-step solar plan, or the one-step
generic analysis plan; no rule produces read-file, write-summary or
finish actions. -/
theorem create_execution_plan_no_history_two_shapes (task : String) :
    create_execution_plan task = solar_plan ∨
    create_execution_plan task = [generic_step task] := by
  unfold create_execution_plan
  split
  · exact Or.inl rfl
  · exact Or.inr rfl

/-! Claim C9 — planner purity and determinism. -/

/-- Claim C9: the planner is embedded as a pure function of the task
text (it neither reads nor writes any `World` state), so two calls on
equal inputs give equal plans, and the plan recorded by the loop driver
is exactly the planner's output, unchanged by execution. -/
theorem create_execution_plan_deterministic_pure (t₁ t₂ : String) (w : World)
    (h : t₁ = t₂) :
    create_execution_plan t₁ = create_execution_plan t₂ ∧
    pyGet (execute_complex_task t₁ w).1 "execution_plan" =
      some (.list (create_execution_plan t₁)) := by
  subst h
  exact ⟨rfl, rfl⟩

/-- Claim C9, witness: two calls on the task `"hello"` agree, and the
recorded plan equals the planner's output. -/
theorem create_execution_plan_deterministic_pure_witness :
    create_execution_plan "hello" = create_execution_plan "hello" ∧
    pyGet (execute_complex_task "hello" okWorld).1 "execution_plan" =
      some (.list (create_execution_plan "hello")) :=
  create_execution_plan_deterministic_pure "hello" "hello" okWorld rfl

/-! Claim C10 — the generic plan's single dispatch-miss observation. -/

/-- Claim C10: for every task matching no rule, the run produces
exactly one observation — the dispatch-miss record
`{"error": "Unknown step type: analysis"}` — and the top-level status
is nevertheless `"completed"`. -/
theorem unmatched_task_one_unknown_step_observation_completed
    (task : String) (w : World)
    (h : (pyIn "solar" (pyLower task) && pyIn "pipeline" (pyLower task)) = false) :
    resultsOf (execute_complex_task task w).1 =
      [errDict "Unknown step type: analysis"] ∧
    pyGet (execute_complex_task task w).1 "status" = some (.s "completed") := by
  refine ⟨?_, rfl⟩
  rw [ect_results, plan_of_unmatched task h]
  rfl

/-- Claim C10, witness: the task `"hello"` matches no rule; its run
yields the single dispatch-miss observation and status
`"completed"`. -/
theorem unmatched_task_one_unknown_step_observation_completed_witness :
    resultsOf (execute_complex_task "hello" okWorld).1 =
      [errDict "Unknown step type: analysis"] ∧
    pyGet (execute_complex_task "hello" okWorld).1 "status" =
      some (.s "completed") :=
  unmatched_task_one_unknown_step_observation_completed "hello" okWorld rfl

/-! Handler shape lemmas (shared). -/

/-- Once a browser session exists, the whole body of
`execute_browser_action` runs inside its `try`, so the handler cannot
raise. -/
theorem execute_browser_action_ok_of_driver (step : PyVal) (w : World)
    (h : w.driver = true) :
    ∃ p, execute_browser_action step w = .ok p := by
  unfold execute_browser_action
  rw [h]
  simp only [if_true]
  split <;> first
    | (split <;> exact ⟨_, rfl⟩)
    | exact ⟨_, rfl⟩

/-- Every observation of the system handler is success-shaped or
error-shaped. -/
theorem obsShapeB_execute_system_operation (step : PyVal) (w : World) :
    obsShapeB (execute_system_operation step w).1 = true := by
  simp only [execute_system_operation]
  repeat' split
  all_goals rfl

/-- Every observation of the AWS handler is success-shaped or
error-shaped. -/
theorem obsShapeB_execute_aws_operation (step : PyVal) (w : World) :
    obsShapeB (execute_aws_operation step w).1 = true := by
  simp only [execute_aws_operation, aws_create_lambda, aws_create_bucket]
  repeat' split
  all_goals rfl

/-- Every observation of the file handler is success-shaped or
error-shaped. -/
theorem obsShapeB_execute_file_operation (step : PyVal) (w : World) :
    obsShapeB (execute_file_operation step w).1 = true := by
  simp only [execute_file_operation]
  repeat' split
  all_goals rfl

/-- Every observation the browser handler returns (when it does not
raise) is success-shaped or error-shaped. -/
theorem obsShapeB_execute_browser_action (step : PyVal) (w : World)
    (p : PyVal × World) (h : execute_browser_action step w = .ok p) :
    obsShapeB p.1 = true := by
  simp only [execute_browser_action] at h
  repeat' split at h
  all_goals
    first
      | exact Except.noConfusion h
      | (injection h with h'; subst h'; rfl)

/-- Every observation the code-generation handler returns (when it
does not raise) is success-shaped or error-shaped. -/
theorem obsShapeB_execute_code_generation (step : PyVal) (w : World)
    (p : PyVal × World) (h : execute_code_generation step w = .ok p) :
    obsShapeB p.1 = true := by
  simp only [execute_code_generation] at h
  repeat' split at h
  all_goals
    first
      | exact Except.noConfusion h
      | (injection h with h'; subst h'; rfl)

/-! Claim C4 — where exceptions can escape the dispatch boundary. -/

/-- Claim C4, counterexample: `execute_step` on the code-generation
step, in a world where `open("solar_pipeline.py", "w")` raises, lets
the exception escape to the loop driver — `execute_step` is not an
exception barrier. -/
theorem code_generation_write_failure_escapes_execute_step :
    execute_step cg_step writeFailWorld = .error "disk full" := rfl

/-- Claim C4, amended: `execute_step` itself catches nothing; the aws,
system and file handlers catch their own exceptions, and the browser
handler catches everything after driver creation, so an exception can
escape `execute_step` only from the unguarded code-generation handler
or from browser-driver construction (which runs before the browser
handler's `try`).  The loop driver then catches it. -/
theorem execute_step_exception_escape_sources (step : PyVal) (w : World)
    (e : String) (h : execute_step step w = .error e) :
    pyGet step "type" = some (.s "code_generation") ∨
    (pyGet step "type" = some (.s "browser_automation") ∧ w.driver = false) := by
  simp only [execute_step] at h
  split at h
  · rename_i heq
    cases hd : w.driver with
    | false => exact Or.inr ⟨heq, rfl⟩
    | true =>
      obtain ⟨p, hp⟩ := execute_browser_action_ok_of_driver step w hd
      rw [hp] at h
      exact Except.noConfusion h
  · exact Except.noConfusion h
  · exact Except.noConfusion h
  · rename_i heq
    exact Or.inl heq
  · exact Except.noConfusion h
  · exact Except.noConfusion h

/-- Claim C4, witness: the failing code-generation step satisfies the
escape characterization. -/
theorem execute_step_exception_escape_sources_witness :
    execute_step cg_step writeFailWorld = .error "disk full" ∧
    (pyGet cg_step "type" = some (.s "code_generation") ∨
     (pyGet cg_step "type" = some (.s "browser_automation") ∧
      writeFailWorld.driver = false)) :=
  ⟨rfl, execute_step_exception_escape_sources cg_step writeFailWorld "disk full" rfl⟩

/-! Claim C5 — the shell handler's reporting. -/

/-- Claim C5, counterexample: a command that fails with exit code 1 is
reported with `status: "success"` (the exit code is only recorded in
`return_code`), and when spawning the shell raises, the observation has
no `status` field at all — failures are never reported as
`status: "error"`. -/
theorem failing_command_reported_success_not_error :
    execute_system_operation (run_command_step "false") shellExitOneWorld =
      (.dict [("status", .s "success"), ("action", .s "Command executed"),
              ("output", .s ""), ("error", .s "boom"), ("return_code", .i 1)],
       shellExitOneWorld) ∧
    pyGet (execute_system_operation (run_command_step "crash") shellRaiseWorld).1
      "status" = Option.none :=
  ⟨rfl, rfl⟩

/-- Claim C5, amended: the shell handler never raises; on a completed
`subprocess.run` it returns stdout/stderr/exit code under
`status: "success"` regardless of the exit code, and a raising run is
caught and reported as `{"error": "System operation failed: ..."}`
(with no status field). -/
theorem execute_system_operation_run_command_shape (step : PyVal) (w : World)
    (h : pyGet step "action" = some (.s "run_command")) :
    (∀ r, w.shellRun (pyGet step "command") = .ok r →
      execute_system_operation step w =
        (.dict [("status", .s "success"), ("action", .s "Command executed"),
                ("output", .s r.stdout), ("error", .s r.stderr),
                ("return_code", .i r.returncode)], w)) ∧
    (∀ m, w.shellRun (pyGet step "command") = .error m →
      execute_system_operation step w =
        (errDict ("System operation failed: " ++ m), w)) := by
  unfold execute_system_operation
  rw [h]
  constructor
  · intro r hr
    rw [hr]
    rfl
  · intro m hm
    rw [hm]
    rfl

/-- Claim C5, witness: a concrete command in the all-ok world produces
the captured-output success observation. -/
theorem execute_system_operation_run_command_shape_witness :
    pyGet (run_command_step "echo hi") "action" = some (.s "run_command") ∧
    execute_system_operation (run_command_step "echo hi") okWorld =
      (.dict [("status", .s "success"), ("action", .s "Command executed"),
              ("output", .s ""), ("error", .s ""), ("return_code", .i 0)],
       okWorld) :=
  ⟨rfl, (execute_system_operation_run_command_shape
          (run_command_step "echo hi") okWorld rfl).1 ⟨"", "", 0⟩ rfl⟩

/-! Claim C6 — observation shapes at the dispatch boundary. -/

/-- Claim C6, counterexample: the dispatch-miss observation for an
unhandled step type is `{"error": ...}` — it has neither a `status`
field nor a `message` field, contradicting the claimed
`{status, message}` normal form. -/
theorem unknown_step_observation_lacks_status_and_message :
    execute_step analysis_only_step okWorld =
      .ok (errDict "Unknown step type: analysis", okWorld) ∧
    pyGet (errDict "Unknown step type: analysis") "status" = Option.none ∧
    pyGet (errDict "Unknown step type: analysis") "message" = Option.none :=
  ⟨rfl, rfl, rfl⟩

/-- Claim C6, amended: every observation `execute_step` returns (on
every non-raising path) is either a success record — `status:
"success"` plus an `action` payload — or an error record `{"error":
message}` carrying no `status` field; there is no `{status: "error",
message}` normal form. -/
theorem execute_step_observation_shape (step : PyVal) (w : World)
    (v : PyVal) (w' : World) (h : execute_step step w = .ok (v, w')) :
    obsShapeB v = true := by
  simp only [execute_step] at h
  split at h
  · exact obsShapeB_execute_browser_action step w (v, w') h
  · injection h with h'
    have hs := obsShapeB_execute_aws_operation step w
    rw [h'] at hs
    exact hs
  · injection h with h'
    have hs := obsShapeB_execute_system_operation step w
    rw [h'] at hs
    exact hs
  · exact obsShapeB_execute_code_generation step w (v, w') h
  · injection h with h'
    have hs := obsShapeB_execute_file_operation step w
    rw [h'] at hs
    exact hs
  · injection h with h'
    rw [Prod.mk.injEq] at h'
    rw [← h'.1]
    rfl

/-- Claim C6, witness: the dispatch-miss observation satisfies the
actual shape invariant (error record without status). -/
theorem execute_step_observation_shape_witness :
    execute_step analysis_only_step okWorld =
      .ok (errDict "Unknown step type: analysis", okWorld) ∧
    obsShapeB (errDict "Unknown step type: analysis") = true :=
  ⟨rfl, execute_step_observation_shape analysis_only_step okWorld
          (errDict "Unknown step type: analysis") okWorld rfl⟩

/-! Claim C8 — file handler round trip. -/

/-- Cons equation of `uniNewlines` for a head that is not a carriage
return. -/
theorem uniNewlines_cons_of_ne (c : Char) (rest : List Char) (hc : c ≠ '\r') :
    uniNewlines (c :: rest) = c :: uniNewlines rest := by
  conv_lhs => rw [uniNewlines.eq_def]
  split
  · rename_i heq
    exact List.noConfusion heq
  · rename_i heq
    injection heq with h1 h2
    exact absurd h1 hc
  · rename_i heq
    injection heq with h1 h2
    exact absurd h1 hc
  · rename_i heq
    injection heq with h1 h2
    subst h1
    subst h2
    rfl

/-- Universal-newline translation is the identity on carriage-return
free text. -/
theorem uniNewlines_id_of_no_cr (l : List Char) :
    (∀ c ∈ l, c ≠ '\r') → uniNewlines l = l := by
  induction l with
  | nil => intro _; rfl
  | cons c rest ih =>
    intro h
    have hc : c ≠ '\r' := h c (List.mem_cons_self c rest)
    have hrest : ∀ x ∈ rest, x ≠ '\r' := fun x hx => h x (List.mem_cons_of_mem c hx)
    rw [uniNewlines_cons_of_ne c rest hc, ih hrest]

/-- Claim C8, counterexample: writing `"a\rb\r\nc"` and reading it
back returns `"a\nb\nc"` — Python text-mode reads translate `"\r"` and
`"\r\n"` to `"\n"`, so the round trip is not byte-for-byte for
carriage-return-containing content. -/
theorem crlf_content_round_trip_not_bytewise :
    pyGet (execute_file_operation (read_file_step "notes.txt")
        (execute_file_operation (create_file_step "notes.txt" "a\rb\r\nc") okWorld).2).1
      "content" = some (.s "a\nb\nc") ∧
    "a\nb\nc" ≠ "a\rb\r\nc" :=
  ⟨rfl, by decide⟩

/-- Claim C8, amended: creating a file with given content and then
reading the same filename returns an observation whose `content` field
is the universal-newline translation of the written content (in any
world whose write call succeeds); the round trip is byte-for-byte
exactly when the content contains no carriage returns. -/
theorem file_round_trip_newline_translated (w : World) (fn content : String)
    (h : w.writeFails fn = Option.none) :
    pyGet (execute_file_operation (create_file_step fn content) w).1 "status" =
      some (.s "success") ∧
    pyGet (execute_file_operation (read_file_step fn)
        (execute_file_operation (create_file_step fn content) w).2).1 "content" =
      some (.s (pyReadText content)) ∧
    pyGet (execute_file_operation (read_file_step fn)
        (execute_file_operation (create_file_step fn content) w).2).1 "status" =
      some (.s "success") ∧
    ((∀ c ∈ content.data, c ≠ '\r') → pyReadText content = content) := by
  refine ⟨?_, ?_, ?_, ?_⟩
  · simp only [execute_file_operation, create_file_step, read_file_step]
    simp [pyGet, pyGetD, h, fsSet, List.lookup]
  · simp only [execute_file_operation, create_file_step, read_file_step]
    simp [pyGet, pyGetD, h, fsSet, List.lookup]
  · simp only [execute_file_operation, create_file_step, read_file_step]
    simp [pyGet, pyGetD, h, fsSet, List.lookup]
  · intro hcr
    unfold pyReadText
    rw [uniNewlines_id_of_no_cr content.data hcr]

/-- Claim C8, witness: a concrete round trip of carriage-return-free
content in the all-ok world, byte-for-byte. -/
theorem file_round_trip_newline_translated_witness :
    okWorld.writeFails "notes.txt" = Option.none ∧
    pyGet (execute_file_operation (read_file_step "notes.txt")
        (execute_file_operation (create_file_step "notes.txt" "hello world") okWorld).2).1
      "content" = some (.s (pyReadText "hello world")) ∧
    pyReadText "hello world" = "hello world" :=
  ⟨rfl, (file_round_trip_newline_translated okWorld "notes.txt" "hello world" rfl).2.1,
   (file_round_trip_newline_translated okWorld "notes.txt" "hello world" rfl).2.2.2
     (by decide)⟩

end SystemAutomation
